import Mathlib

/-!
Verification development for the fgp-github daemon (src/src/service.rs and
src/src/main.rs): a shallow embedding of the JSON value model, the parameter
helpers, the repository-identifier parser, the method implementations, the
dispatcher, the method catalog and the health check, together with theorems
about them.
-/

namespace FgpGithub

/-- Model of a serde_json number. The source stores either a 64-bit integer
(i64 or u64 variants) or an f64; the float payload is carried as a rational.
The only numeric accessor the source uses is as_i64, which returns None for
every float variant (even an integral one), matching serde_json. -/
inductive Num where
  | int : Int → Num
  | float : Rat → Num
deriving DecidableEq

/-- Model of serde_json::Value. Objects are insertion-ordered field lists,
matching the order the source writes in its json macros. -/
inductive Value where
  | null : Value
  | bool : Bool → Value
  | num : Num → Value
  | str : String → Value
  | arr : List Value → Value
  | obj : List (String × Value) → Value

/-- Parameter bag: model of HashMap String Value as an association list,
accessed only through lookup (first match). -/
def Params := List (String × Value)

/-- Lookup of a key in a parameter bag, model of HashMap get. -/
def Params.get (params : Params) (key : String) : Option Value :=
  List.lookup key params

/-- Model of Value::as_str: Some for a string value, None otherwise. -/
def as_str : Value → Option String
  | .str s => some s
  | _ => none

def I64_MIN : Int := -9223372036854775808

def I64_MAX : Int := 9223372036854775807

/-- Model of Value::as_i64: the integer when the number is an integer variant
representable as i64, None for floats and everything else. -/
def as_i64 : Value → Option Int
  | .num (.int i) => if I64_MIN ≤ i ∧ i ≤ I64_MAX then some i else none
  | _ => none

/-- Model of the Rust cast expression v as i32 on an i64 value: two-sided
wrap-around into the 32-bit signed range. -/
def i32_cast (i : Int) : Int :=
  (i + 2147483648) % 4294967296 - 2147483648

/-- Helper splitting a character list at every occurrence of sep: returns the
first segment and the remaining segments. -/
def splitAux (sep : Char) : List Char → List Char × List (List Char)
  | [] => ([], [])
  | c :: cs =>
    let r := splitAux sep cs
    if c = sep then ([], r.1 :: r.2) else (c :: r.1, r.2)

/-- Model of Rust str::split with a char pattern: the empty string yields one
empty segment, and every separator adds one segment. -/
def rustSplit (sep : Char) (s : String) : List String :=
  let r := splitAux sep s.data
  (r.1 :: r.2).map String.mk

end FgpGithub

namespace FgpGithub.GitHubService

open FgpGithub

/-- Model of GitHubService::get_str. -/
def get_str (params : Params) (key : String) : Option String :=
  (params.get key).bind as_str

/-- Model of GitHubService::get_i32: the i64 value cast to i32 when present,
the default otherwise (also when the value is not i64-representable). -/
def get_i32 (params : Params) (key : String) (default : Int) : Int :=
  match (params.get key).bind as_i64 with
  | some i => i32_cast i
  | none => default

/-- Model of GitHubService::parse_repo: split the string on the slash and
demand exactly two parts; the parts are not checked for emptiness. The source
formats the offending string into the message with a placeholder and quotes
owner/repo; the model concatenates it and drops the quotes. -/
def parse_repo (s : String) : Except String (String × String) :=
  let parts := rustSplit '/' s
  if parts.length = 2 then
    .ok (parts.getD 0 "", parts.getD 1 "")
  else
    .error ("Invalid repo format. Expected owner/repo, got: " ++ s)

end FgpGithub.GitHubService

namespace FgpGithub

/-- Model of an api::Notification as the service consumes it: the unread flag
(read by the unread_count fold) and the serialized JSON form the json macro
produces for it. -/
structure Notification where
  unread : Bool
  json : Value

/-- Model of the api::GitHubClient collaborator: one field per async operation
the service invokes through the runtime. Each field holds the outcome of that
operation (the serialized JSON payload on success, the anyhow message on
failure); list-returning operations yield the list of serialized items. The
dispatcher performs no network work itself, so a run of the service is fully
described by such a record. -/
structure GitHubClient where
  ping : Except String Bool
  get_user : Except String Value
  list_repos : Int → Except String (List Value)
  list_issues : String → String → String → Int → Except String (List Value)
  list_prs : String → String → String → Int → Except String (List Value)
  get_pr : String → String → Int → Except String Value
  get_notifications : Except String (List Notification)
  create_issue : String → String → String → Option String → Except String Value

/-- Model of the CARGO_PKG_VERSION compile-time constant. -/
def CARGO_PKG_VERSION : String := "0.1.0"

end FgpGithub

namespace FgpGithub.GitHubService

open FgpGithub

/-- Model of GitHubService::health. -/
def health (c : GitHubClient) : Except String Value :=
  match c.ping with
  | .error e => .error e
  | .ok ok =>
    .ok (.obj [
      ("status", .str (if ok then "healthy" else "unhealthy")),
      ("api_connected", .bool ok),
      ("version", .str CARGO_PKG_VERSION)])

/-- Model of GitHubService::get_user: the serialized user on success. -/
def get_user (c : GitHubClient) : Except String Value :=
  c.get_user

/-- Model of GitHubService::list_repos. -/
def list_repos (c : GitHubClient) (params : Params) : Except String Value :=
  let limit := get_i32 params "limit" 10
  match c.list_repos limit with
  | .error e => .error e
  | .ok repos =>
    .ok (.obj [
      ("repos", .arr repos),
      ("count", .num (.int repos.length))])

/-- Model of GitHubService::list_issues. -/
def list_issues (c : GitHubClient) (params : Params) : Except String Value :=
  match get_str params "repo" with
  | none => .error "Missing required parameter: repo"
  | some repo_str =>
    match parse_repo repo_str with
    | .error e => .error e
    | .ok (owner, repo) =>
      let state := (get_str params "state").getD "open"
      let limit := get_i32 params "limit" 10
      match c.list_issues owner repo state limit with
      | .error e => .error e
      | .ok issues =>
        .ok (.obj [
          ("repo", .str repo_str),
          ("state", .str state),
          ("issues", .arr issues),
          ("count", .num (.int issues.length))])

/-- Model of GitHubService::list_prs. -/
def list_prs (c : GitHubClient) (params : Params) : Except String Value :=
  match get_str params "repo" with
  | none => .error "Missing required parameter: repo"
  | some repo_str =>
    match parse_repo repo_str with
    | .error e => .error e
    | .ok (owner, repo) =>
      let state := (get_str params "state").getD "open"
      let limit := get_i32 params "limit" 10
      match c.list_prs owner repo state limit with
      | .error e => .error e
      | .ok prs =>
        .ok (.obj [
          ("repo", .str repo_str),
          ("state", .str state),
          ("prs", .arr prs),
          ("count", .num (.int prs.length))])

/-- Model of GitHubService::get_pr: a zero number (the get_i32 default) is
reported as the missing required parameter before any client call. -/
def get_pr (c : GitHubClient) (params : Params) : Except String Value :=
  match get_str params "repo" with
  | none => .error "Missing required parameter: repo"
  | some repo_str =>
    match parse_repo repo_str with
    | .error e => .error e
    | .ok (owner, repo) =>
      let number := get_i32 params "number" 0
      if number = 0 then
        .error "Missing required parameter: number"
      else
        c.get_pr owner repo number

/-- Model of GitHubService::get_notifications. -/
def get_notifications (c : GitHubClient) (_params : Params) : Except String Value :=
  match c.get_notifications with
  | .error e => .error e
  | .ok ns =>
    .ok (.obj [
      ("notifications", .arr (ns.map (·.json))),
      ("unread_count", .num (.int (ns.filter (·.unread)).length))])

/-- Model of GitHubService::create_issue. -/
def create_issue (c : GitHubClient) (params : Params) : Except String Value :=
  match get_str params "repo" with
  | none => .error "Missing required parameter: repo"
  | some repo_str =>
    match parse_repo repo_str with
    | .error e => .error e
    | .ok (owner, repo) =>
      match get_str params "title" with
      | none => .error "Missing required parameter: title"
      | some title =>
        let body := get_str params "body"
        match c.create_issue owner repo title body with
        | .error e => .error e
        | .ok issue =>
          .ok (.obj [
            ("created", .bool true),
            ("issue", issue)])

/-- Model of the FgpService dispatch implementation of GitHubService: a match
on the method string accepting bare and github-namespaced names. -/
def dispatch (c : GitHubClient) (method : String) (params : Params) :
    Except String Value :=
  match method with
  | "health" => health c
  | "user" | "github.user" => get_user c
  | "repos" | "github.repos" => list_repos c params
  | "issues" | "github.issues" => list_issues c params
  | "prs" | "github.prs" => list_prs c params
  | "pr" | "github.pr" => get_pr c params
  | "notifications" | "github.notifications" => get_notifications c params
  | "create_issue" | "github.create_issue" => create_issue c params
  | m => .error ("Unknown method: " ++ m)

end FgpGithub.GitHubService

namespace FgpGithub

/-- Model of fgp_daemon HealthStatus as the service constructs it: healthy
with a latency in milliseconds, or unhealthy with a reason. The latency is
wall-clock time, passed in as a parameter of the model. -/
inductive HealthStatus where
  | healthy_with_latency : Rat → HealthStatus
  | unhealthy : String → HealthStatus

/-- Whether a health status is the healthy variant. -/
def HealthStatus.isHealthy : HealthStatus → Bool
  | .healthy_with_latency _ => true
  | .unhealthy _ => false

end FgpGithub

namespace FgpGithub.GitHubService

open FgpGithub

/-- Model of the FgpService health_check implementation of GitHubService: one
github_api entry, healthy only when ping returns true; a false ping reports
unhealthy with the empty viewer login reason. The elapsed latency is a model
parameter. -/
def health_check (c : GitHubClient) (latency : Rat) :
    List (String × HealthStatus) :=
  match c.ping with
  | .ok true => [("github_api", .healthy_with_latency latency)]
  | .ok false => [("github_api", .unhealthy "Empty viewer login")]
  | .error e => [("github_api", .unhealthy e)]

end FgpGithub.GitHubService

namespace FgpGithub

/-- Constraints a string schema node may carry, mirroring the SchemaBuilder
calls the source uses on string nodes. The descriptions that quote owner/repo
in the source are transcribed without the quotes. -/
structure StrConstraints where
  pattern : Option String := none
  enum_values : Option (List String) := none
  min_length : Option Nat := none
  max_length : Option Nat := none
  format : Option String := none
  default : Option Value := none
  description : Option String := none

/-- Constraints an integer schema node may carry. -/
structure IntConstraints where
  minimum : Option Int := none
  maximum : Option Int := none
  default : Option Value := none
  description : Option String := none

/-- Constraints an array schema node may carry besides its item schema. -/
structure ArrConstraints where
  description : Option String := none

/-- Model of the built JSON schema trees the SchemaBuilder fluent calls in
method_list produce, as plain declarative literals: object nodes hold their
ordered properties and required-field list, array nodes their item schema. -/
inductive Schema where
  | string : StrConstraints → Schema
  | integer : IntConstraints → Schema
  | boolean : Schema
  | object : List (String × Schema) → List String → Schema
  | array : Schema → ArrConstraints → Schema

/-- Model of the rich fgp_daemon MethodInfo record as the source builds it:
name, description, input schema, output schema, titled examples and declared
error codes. -/
structure MethodInfo where
  name : String
  description : String
  input_schema : Schema
  output_schema : Schema
  examples : List (String × Value) := []
  errors : List String := []

end FgpGithub

namespace FgpGithub.GitHubService

open FgpGithub

/-- Model of the FgpService method_list implementation of GitHubService: the
seven catalog entries with their schemas, examples and error codes, written
as plain literals for the builder chains of the source. -/
def method_list : List MethodInfo :=
  [ { name := "github.user",
      description := "Get current authenticated user info",
      input_schema := .object [] [],
      output_schema := .object [
        ("login", .string { description := some "GitHub username" }),
        ("name", .string { description := some "Display name" }),
        ("email", .string { format := some "email" }),
        ("avatar_url", .string { format := some "uri" })] [],
      examples := [("Get current user", .obj [])] },
    { name := "github.repos",
      description := "List your repositories",
      input_schema := .object [
        ("limit", .integer
          { minimum := some 1, maximum := some 100,
            default := some (.num (.int 10)),
            description := some "Maximum number of repos to return" })] [],
      output_schema := .object [
        ("repos", .array (.object [
            ("name", .string {}),
            ("full_name", .string {}),
            ("url", .string { format := some "uri" }),
            ("description", .string {}),
            ("stargazers_count", .integer {})] [])
          { description := some "List of repositories" }),
        ("count", .integer {})] [],
      examples := [("List top 5 repos", .obj [("limit", .num (.int 5))])] },
    { name := "github.issues",
      description := "List issues for a repository",
      input_schema := .object [
        ("repo", .string
          { pattern := some "^[a-zA-Z0-9_.-]+/[a-zA-Z0-9_.-]+$",
            description := some "Repository in owner/repo format" }),
        ("state", .string
          { enum_values := some ["open", "closed", "all"],
            default := some (.str "open"),
            description := some "Issue state filter" }),
        ("limit", .integer
          { minimum := some 1, maximum := some 100,
            default := some (.num (.int 10)),
            description := some "Maximum issues to return" })] ["repo"],
      output_schema := .object [
        ("repo", .string {}),
        ("state", .string {}),
        ("issues", .array (.object [
            ("number", .integer {}),
            ("title", .string {}),
            ("state", .string {}),
            ("created_at", .string { format := some "date-time" }),
            ("url", .string { format := some "uri" })] []) {}),
        ("count", .integer {})] [],
      examples := [
        ("List open issues", .obj [("repo", .str "fast-gateway-protocol/daemon")]),
        ("List closed issues", .obj [
          ("repo", .str "fast-gateway-protocol/daemon"),
          ("state", .str "closed"),
          ("limit", .num (.int 5))])],
      errors := ["NOT_FOUND", "UNAUTHORIZED"] },
    { name := "github.prs",
      description := "List pull requests for a repository",
      input_schema := .object [
        ("repo", .string
          { pattern := some "^[a-zA-Z0-9_.-]+/[a-zA-Z0-9_.-]+$",
            description := some "Repository in owner/repo format" }),
        ("state", .string
          { enum_values := some ["open", "closed", "all"],
            default := some (.str "open"),
            description := some "PR state filter" }),
        ("limit", .integer
          { minimum := some 1, maximum := some 100,
            default := some (.num (.int 10)),
            description := some "Maximum PRs to return" })] ["repo"],
      output_schema := .object [
        ("repo", .string {}),
        ("state", .string {}),
        ("prs", .array (.object [
            ("number", .integer {}),
            ("title", .string {}),
            ("state", .string {}),
            ("head_ref", .string {}),
            ("base_ref", .string {}),
            ("url", .string { format := some "uri" })] []) {}),
        ("count", .integer {})] [],
      examples := [
        ("List open PRs", .obj [("repo", .str "fast-gateway-protocol/daemon")])],
      errors := ["NOT_FOUND", "UNAUTHORIZED"] },
    { name := "github.pr",
      description := "Get pull request details with reviews and status checks",
      input_schema := .object [
        ("repo", .string
          { pattern := some "^[a-zA-Z0-9_.-]+/[a-zA-Z0-9_.-]+$",
            description := some "Repository in owner/repo format" }),
        ("number", .integer
          { minimum := some 1,
            description := some "Pull request number" })] ["repo", "number"],
      output_schema := .object [
        ("number", .integer {}),
        ("title", .string {}),
        ("body", .string {}),
        ("state", .string {}),
        ("mergeable", .boolean),
        ("head_ref", .string {}),
        ("base_ref", .string {}),
        ("reviews", .array (.object [
            ("author", .string {}),
            ("state", .string {})] []) {}),
        ("status_checks", .array (.object [
            ("context", .string {}),
            ("state", .string {})] []) {})] [],
      examples := [
        ("Get PR #42", .obj [
          ("repo", .str "fast-gateway-protocol/daemon"),
          ("number", .num (.int 42))])],
      errors := ["NOT_FOUND", "UNAUTHORIZED"] },
    { name := "github.notifications",
      description := "Get unread GitHub notifications",
      input_schema := .object [] [],
      output_schema := .object [
        ("notifications", .array (.object [
            ("id", .string {}),
            ("reason", .string {}),
            ("unread", .boolean),
            ("subject_title", .string {}),
            ("subject_type", .string {}),
            ("repo_full_name", .string {})] []) {}),
        ("unread_count", .integer {})] [],
      examples := [("Get notifications", .obj [])] },
    { name := "github.create_issue",
      description := "Create a new issue in a repository",
      input_schema := .object [
        ("repo", .string
          { pattern := some "^[a-zA-Z0-9_.-]+/[a-zA-Z0-9_.-]+$",
            description := some "Repository in owner/repo format" }),
        ("title", .string
          { min_length := some 1, max_length := some 256,
            description := some "Issue title" }),
        ("body", .string { description := some "Issue body (Markdown supported)" })]
        ["repo", "title"],
      output_schema := .object [
        ("created", .boolean),
        ("issue", .object [
          ("number", .integer {}),
          ("title", .string {}),
          ("url", .string { format := some "uri" })] [])] [],
      examples := [
        ("Create a bug report", .obj [
          ("repo", .str "fast-gateway-protocol/daemon"),
          ("title", .str "Bug: Socket timeout after 30s"),
          ("body", .str "## Description\nThe socket times out unexpectedly...")])],
      errors := ["NOT_FOUND", "UNAUTHORIZED", "VALIDATION_FAILED"] } ]

end FgpGithub.GitHubService

namespace FgpGithub

/-- Model of Rust str::contains with a string pattern: some suffix of the
haystack starts with the pattern. -/
def containsSubstring (hay pat : String) : Bool :=
  hay.data.tails.any (fun t => pat.data.isPrefixOf t)

end FgpGithub

namespace FgpGithub.GithubService

open FgpGithub

/-- Model of the outcome of one gh CLI invocation in main.rs: the exit status
success flag, the JSON parse of the captured stdout (none when stdout is not
valid JSON) and the captured stderr text. -/
structure CmdOut where
  success : Bool
  stdout : Option Value
  stderr : String

/-- Model of the argument list GithubService::pr_status hands to the gh
executable: the fixed pr status arguments, extended with the repo flag when
the bag carries a string repo parameter. -/
def pr_status_args (params : Params) : List String :=
  let args := ["pr", "status", "--json",
    "currentBranch,createdBy,reviews,statusCheckRollup"]
  match (params.get "repo").bind as_str with
  | some r => args ++ ["--repo", r]
  | none => args

/-- Model of GithubService::pr_status from main.rs, parametrized by the
command runner: a runner error models a failure to spawn gh (the anyhow
context is concatenated in front of the cause); on a failing exit status a
stderr containing the not a git repository phrase is turned into a degenerate
success with has_pr false, any other failing status is an error. -/
def pr_status (run : List String → Except String CmdOut) (params : Params) :
    Except String Value :=
  match run (pr_status_args params) with
  | .error e => .error ("Failed to run gh pr status: " ++ e)
  | .ok out =>
    if out.success = false then
      if containsSubstring out.stderr "not a git repository" then
        .ok (.obj [
          ("error", .str "Not in a git repository"),
          ("has_pr", .bool false)])
      else
        .error ("gh pr status failed: " ++ out.stderr)
    else
      match out.stdout with
      | none => .error "Failed to parse gh output"
      | some v => .ok v

end FgpGithub.GithubService

namespace FgpGithub

/-- Test client whose operations all succeed with small fixed payloads; the
repos operation echoes the limit it receives and the pr operation echoes its
arguments, so pass-through of validated parameters is observable. -/
def okClient : GitHubClient where
  ping := .ok true
  get_user := .ok (.str "octocat")
  list_repos := fun limit => .ok [.num (.int limit)]
  list_issues := fun _ _ _ _ => .ok []
  list_prs := fun _ _ _ _ => .ok []
  get_pr := fun owner repo number => .ok (.obj [
    ("owner", .str owner), ("repo", .str repo),
    ("number", .num (.int number))])
  get_notifications := .ok []
  create_issue := fun _ _ title _ => .ok (.obj [("title", .str title)])

/-- Test client that is reachable but reports an empty viewer login: ping
completes with false. -/
def pingEmptyClient : GitHubClient :=
  { okClient with ping := .ok false }

/-- Test client returning exactly two open issues for every issues query. -/
def issuesClient : GitHubClient :=
  { okClient with
    list_issues := fun _ _ _ _ => .ok [.str "issue one", .str "issue two"] }

/-- Test runner reporting a failing gh invocation whose stderr says there is
no current pull request (and does not mention a missing git repository). -/
def runNoPr : List String → Except String GithubService.CmdOut :=
  fun _ => .ok ⟨false, none, "no current pull request"⟩

/-- Test runner reporting a failing gh invocation from outside a git
repository. -/
def runNotARepo : List String → Except String GithubService.CmdOut :=
  fun _ => .ok ⟨false, none,
    "fatal: not a git repository (or any of the parent directories)"⟩

/-- Specification shape of a method body that fails on a missing field after
the repo lookup and parse chain: the repo-missing error, the parse error, or
the second missing-field error, never a success and never a client call. -/
def missing_chain (o : Option String)
    (f : String → Except String (String × String)) (m1 m2 : String) :
    Except String Value :=
  match o with
  | none => .error m1
  | some rs =>
    match f rs with
    | .error e => .error e
    | .ok _ => .error m2

end FgpGithub

namespace FgpGithub

/-- Auxiliary lemma: the number of segments after the first one that the
split helper produces equals the number of separator occurrences. -/
theorem splitAux_snd_length (sep : Char) (l : List Char) :
    (splitAux sep l).2.length = l.count sep := by
  induction l with
  | nil => rfl
  | cons c cs ih =>
    simp only [splitAux, List.count_cons]
    by_cases h : c = sep
    · simp [h, ih]
    · simp [h, ih, Ne.symm h]

/-- Characterization of the repository parser: parsing succeeds exactly when
the string contains exactly one slash. -/
theorem parse_repo_isOk (s : String) :
    (GitHubService.parse_repo s).isOk = true ↔ s.data.count '/' = 1 := by
  have h := splitAux_snd_length '/' s.data
  unfold GitHubService.parse_repo rustSplit
  simp only [List.map_cons, List.length_cons, List.length_map]
  split
  · rename_i hlen
    constructor
    · intro _
      omega
    · intro _
      rfl
  · rename_i hlen
    constructor
    · intro hko
      exact Bool.noConfusion hko
    · intro hc
      omega

end FgpGithub

namespace FgpGithub

/-- C1: the claim states that the parser fails exactly when the string is not
two non-empty slash-separated components; in fact the source only counts the
components and accepts empty ones, so the identifier with an empty owner
parses successfully. -/
theorem C1_counterexample :
    GitHubService.parse_repo "/x" = .ok ("", "x")
    ∧ GitHubService.parse_repo "x/" = .ok ("x", "") :=
  ⟨rfl, rfl⟩

/-- C1 (amended): the parser fails exactly when the string does not split
into exactly two slash-separated components, that is when the number of
slashes differs from one; components may be empty. It still fails on the
strings x, a/b/c and the empty string, succeeds on owner/name, and also
succeeds on /x and x/ with an empty component. -/
theorem C1_parse_repo_two_segments (s : String) :
    ((GitHubService.parse_repo s).isOk = true ↔ s.data.count '/' = 1)
    ∧ (GitHubService.parse_repo "x").isOk = false
    ∧ (GitHubService.parse_repo "a/b/c").isOk = false
    ∧ (GitHubService.parse_repo "").isOk = false
    ∧ GitHubService.parse_repo "owner/name" = .ok ("owner", "name")
    ∧ GitHubService.parse_repo "/x" = .ok ("", "x")
    ∧ GitHubService.parse_repo "x/" = .ok ("x", "") :=
  ⟨parse_repo_isOk s, rfl, rfl, rfl, rfl, rfl, rfl⟩

end FgpGithub

namespace FgpGithub

/-- C3 counterexample: a client whose ping completes successfully with a
negative answer (reachable provider, empty viewer login) makes the health
check report github_api as unhealthy, not healthy as the claim states. -/
theorem C3_counterexample :
    GitHubService.health_check pingEmptyClient 37
      = [("github_api", HealthStatus.unhealthy "Empty viewer login")]
    ∧ (GitHubService.health_check pingEmptyClient 37).map
        (fun p => (p.1, p.2.isHealthy)) = [("github_api", false)] :=
  ⟨rfl, rfl⟩

/-- C3 (amended): whenever ping completes successfully with a negative answer
the health check reports the github_api component as unhealthy with the empty
viewer login reason; only a positive ping reports healthy. -/
theorem C3_empty_ping_reports_unhealthy (c : GitHubClient) (latency : Rat)
    (h : c.ping = .ok false) :
    GitHubService.health_check c latency
      = [("github_api", HealthStatus.unhealthy "Empty viewer login")] := by
  unfold GitHubService.health_check
  rw [h]

/-- C3 witness: the amended theorem applied to the concrete empty-login
client. -/
theorem C3_witness :
    GitHubService.health_check pingEmptyClient 5
      = [("github_api", HealthStatus.unhealthy "Empty viewer login")] :=
  C3_empty_ping_reports_unhealthy pingEmptyClient 5 rfl

/-- C4 counterexample: a fractional limit is not rejected with a type
mismatch; as_i64 yields none for it, get_i32 substitutes the default 10, and
dispatch succeeds, passing 10 to the client (the test client echoes the limit
it received). -/
theorem C4_counterexample :
    GitHubService.get_i32 [("limit", Value.num (Num.float (5/2)))] "limit" 10 = 10
    ∧ GitHubService.dispatch okClient "repos" [("limit", Value.num (Num.float (5/2)))]
      = .ok (.obj [("repos", .arr [.num (.int 10)]), ("count", .num (.int 1))]) :=
  ⟨rfl, rfl⟩

/-- C4 (amended): a fractional numeric value for an integer-typed field is
silently ignored rather than rejected: as_i64 returns none on every float, so
dispatch of repos behaves as if the limit were absent (the default applies)
and dispatch of pr takes the missing-number error path. -/
theorem C4_fractional_is_ignored (c : GitHubClient) (q : Rat) :
    as_i64 (Value.num (Num.float q)) = none
    ∧ GitHubService.dispatch c "repos" [("limit", Value.num (Num.float q))]
      = GitHubService.dispatch c "repos" []
    ∧ GitHubService.dispatch c "pr"
        [("repo", Value.str "a/b"), ("number", Value.num (Num.float q))]
      = .error "Missing required parameter: number" :=
  ⟨rfl, rfl, rfl⟩

/-- C5: for every catalog method name, dispatch resolves the bare and the
github-namespaced form to the same implementation, so the results agree for
every client and parameter bag. -/
theorem C5_alias_transparency (c : GitHubClient) (params : Params) :
    GitHubService.dispatch c "github.user" params
      = GitHubService.dispatch c "user" params
    ∧ GitHubService.dispatch c "github.repos" params
      = GitHubService.dispatch c "repos" params
    ∧ GitHubService.dispatch c "github.issues" params
      = GitHubService.dispatch c "issues" params
    ∧ GitHubService.dispatch c "github.prs" params
      = GitHubService.dispatch c "prs" params
    ∧ GitHubService.dispatch c "github.pr" params
      = GitHubService.dispatch c "pr" params
    ∧ GitHubService.dispatch c "github.notifications" params
      = GitHubService.dispatch c "notifications" params
    ∧ GitHubService.dispatch c "github.create_issue" params
      = GitHubService.dispatch c "create_issue" params :=
  ⟨rfl, rfl, rfl, rfl, rfl, rfl, rfl⟩

/-- C6: dispatching repos with the empty bag and with an explicit limit of 10
normalizes to the same limit, so the client receives the same value and the
response is identical for every client. -/
theorem C6_repos_default_limit (c : GitHubClient) :
    GitHubService.dispatch c "repos" []
      = GitHubService.dispatch c "repos" [("limit", Value.num (Num.int 10))]
    ∧ GitHubService.get_i32 [] "limit" 10 = 10
    ∧ GitHubService.get_i32 [("limit", Value.num (Num.int 10))] "limit" 10 = 10 :=
  ⟨rfl, rfl, rfl⟩

end FgpGithub

namespace FgpGithub

/-- Auxiliary lemma: a missing-field result chain is never a success. -/
theorem missing_chain_isOk (o : Option String)
    (f : String → Except String (String × String)) (m1 m2 : String) :
    (missing_chain o f m1 m2).isOk = false := by
  unfold missing_chain
  cases o with
  | none => rfl
  | some rs =>
    show (match f rs with
          | .error e => (Except.error e : Except String Value)
          | .ok _ => .error m2).isOk = false
    cases f rs with
    | error e => rfl
    | ok pr => rfl

/-- C2: for each method declaring a required field (repo for issues, prs, pr
and create_issue; number for pr; title for create_issue), a bag missing that
field makes dispatch return the validation error before any client work: for
a missing repo the result is the fixed missing-repo error for every client,
and for a missing number or title the result is a non-success that is
identical for any two clients, so no client operation can have been
invoked. -/
theorem C2_missing_required_field_no_network
    (c c2 : GitHubClient) (params : Params) :
    (params.get "repo" = none →
      GitHubService.dispatch c "issues" params
        = .error "Missing required parameter: repo"
      ∧ GitHubService.dispatch c "prs" params
        = .error "Missing required parameter: repo"
      ∧ GitHubService.dispatch c "pr" params
        = .error "Missing required parameter: repo"
      ∧ GitHubService.dispatch c "create_issue" params
        = .error "Missing required parameter: repo")
    ∧ (params.get "number" = none →
      (GitHubService.dispatch c "pr" params).isOk = false
      ∧ GitHubService.dispatch c "pr" params
        = GitHubService.dispatch c2 "pr" params)
    ∧ (params.get "title" = none →
      (GitHubService.dispatch c "create_issue" params).isOk = false
      ∧ GitHubService.dispatch c "create_issue" params
        = GitHubService.dispatch c2 "create_issue" params) := by
  refine ⟨fun h => ?_, fun h => ?_, fun h => ?_⟩
  · have hs : GitHubService.get_str params "repo" = none := by
      simp [GitHubService.get_str, h]
    refine ⟨?_, ?_, ?_, ?_⟩
    · show GitHubService.list_issues c params = _
      unfold GitHubService.list_issues
      rw [hs]
    · show GitHubService.list_prs c params = _
      unfold GitHubService.list_prs
      rw [hs]
    · show GitHubService.get_pr c params = _
      unfold GitHubService.get_pr
      rw [hs]
    · show GitHubService.create_issue c params = _
      unfold GitHubService.create_issue
      rw [hs]
  · have hn : GitHubService.get_i32 params "number" 0 = 0 := by
      simp [GitHubService.get_i32, h]
    have key : ∀ cc : GitHubClient,
        GitHubService.get_pr cc params
          = missing_chain (GitHubService.get_str params "repo")
              GitHubService.parse_repo
              "Missing required parameter: repo"
              "Missing required parameter: number" := by
      intro cc
      unfold GitHubService.get_pr missing_chain
      cases hr : GitHubService.get_str params "repo" with
      | none => rfl
      | some repo_str =>
        cases hp : GitHubService.parse_repo repo_str with
        | error e => simp [hp]
        | ok pr =>
          cases pr with
          | mk owner repo => simp [hp, hn]
    refine ⟨?_, ?_⟩
    · show (GitHubService.get_pr c params).isOk = false
      rw [key c]
      exact missing_chain_isOk _ _ _ _
    · show GitHubService.get_pr c params = GitHubService.get_pr c2 params
      rw [key c, key c2]
  · have ht : GitHubService.get_str params "title" = none := by
      simp [GitHubService.get_str, h]
    have key : ∀ cc : GitHubClient,
        GitHubService.create_issue cc params
          = missing_chain (GitHubService.get_str params "repo")
              GitHubService.parse_repo
              "Missing required parameter: repo"
              "Missing required parameter: title" := by
      intro cc
      unfold GitHubService.create_issue missing_chain
      cases hr : GitHubService.get_str params "repo" with
      | none => rfl
      | some repo_str =>
        cases hp : GitHubService.parse_repo repo_str with
        | error e => simp [hp]
        | ok pr =>
          cases pr with
          | mk owner repo => simp [hp, ht]
    refine ⟨?_, ?_⟩
    · show (GitHubService.create_issue c params).isOk = false
      rw [key c]
      exact missing_chain_isOk _ _ _ _
    · show GitHubService.create_issue c params
        = GitHubService.create_issue c2 params
      rw [key c, key c2]

/-- C2 witness: the empty bag misses every required field, and dispatch at a
concrete client returns the validation errors. -/
theorem C2_witness :
    (Params.get [] "repo" = none
      ∧ GitHubService.dispatch okClient "issues" []
        = .error "Missing required parameter: repo")
    ∧ (Params.get [] "number" = none
      ∧ (GitHubService.dispatch okClient "pr" []).isOk = false)
    ∧ (Params.get [] "title" = none
      ∧ (GitHubService.dispatch okClient "create_issue" []).isOk = false) :=
  ⟨⟨rfl, ((C2_missing_required_field_no_network okClient pingEmptyClient []).1
      rfl).1⟩,
   ⟨rfl, ((C2_missing_required_field_no_network okClient pingEmptyClient []).2.1
      rfl).1⟩,
   ⟨rfl, ((C2_missing_required_field_no_network okClient pingEmptyClient []).2.2
      rfl).1⟩⟩

end FgpGithub

namespace FgpGithub

/-- C7: the issues response envelope echoes the repo string and the possibly
defaulted state and carries count equal to the length of the returned issues
list; in particular the scenario with two open issues for acme/widgets yields
exactly the stated object. -/
theorem C7_issues_envelope (c : GitHubClient) (params : Params)
    (repo_str owner repo : String) (issues : List Value) (i1 i2 : Value) :
    (c.list_issues "acme" "widgets" "open" 10 = .ok [i1, i2] →
      GitHubService.dispatch c "issues" [("repo", Value.str "acme/widgets")]
        = .ok (.obj [("repo", .str "acme/widgets"), ("state", .str "open"),
            ("issues", .arr [i1, i2]), ("count", .num (.int 2))]))
    ∧ (GitHubService.get_str params "repo" = some repo_str →
      GitHubService.parse_repo repo_str = .ok (owner, repo) →
      c.list_issues owner repo ((GitHubService.get_str params "state").getD "open")
          (GitHubService.get_i32 params "limit" 10) = .ok issues →
      GitHubService.dispatch c "issues" params
        = .ok (.obj [("repo", .str repo_str),
            ("state", .str ((GitHubService.get_str params "state").getD "open")),
            ("issues", .arr issues),
            ("count", .num (.int issues.length))])) := by
  constructor
  · intro h
    have e : GitHubService.list_issues c [("repo", Value.str "acme/widgets")]
        = match c.list_issues "acme" "widgets" "open" 10 with
          | .error e => .error e
          | .ok issues =>
            .ok (.obj [("repo", .str "acme/widgets"), ("state", .str "open"),
              ("issues", .arr issues),
              ("count", .num (.int issues.length))]) := rfl
    show GitHubService.list_issues c [("repo", Value.str "acme/widgets")] = _
    rw [e, h]
    rfl
  · intro h1 h2 h3
    show GitHubService.list_issues c params = _
    simp only [GitHubService.list_issues, h1, h2, h3]

/-- C7 witness: the scenario part applied to the concrete two-issue client. -/
theorem C7_witness :
    issuesClient.list_issues "acme" "widgets" "open" 10
      = .ok [Value.str "issue one", Value.str "issue two"]
    ∧ GitHubService.dispatch issuesClient "issues"
        [("repo", Value.str "acme/widgets")]
      = .ok (.obj [("repo", .str "acme/widgets"), ("state", .str "open"),
          ("issues", .arr [Value.str "issue one", Value.str "issue two"]),
          ("count", .num (.int 2))]) :=
  ⟨rfl, (C7_issues_envelope issuesClient [] "" "" "" [] (Value.str "issue one")
      (Value.str "issue two")).1 rfl⟩

/-- C8 counterexample: well-typed integer limits outside the declared range
[1, 100] are not rejected: dispatch succeeds for 101 and for 0 and passes the
out-of-range value through to the client (the test client echoes it). -/
theorem C8_counterexample :
    GitHubService.dispatch okClient "repos" [("limit", Value.num (Num.int 101))]
      = .ok (.obj [("repos", .arr [.num (.int 101)]), ("count", .num (.int 1))])
    ∧ GitHubService.dispatch okClient "repos" [("limit", Value.num (Num.int 0))]
      = .ok (.obj [("repos", .arr [.num (.int 0)]), ("count", .num (.int 1))]) :=
  ⟨rfl, rfl⟩

/-- C8 (amended): the catalog schema for github.repos declares the limit
bounds minimum 1 and maximum 100, but dispatch does not enforce them: every
i64-representable integer limit, on either side of the bounds or exactly at
them, is cast to i32 and passed through to the client unchanged. -/
theorem C8_limit_bounds_declared_not_enforced (c : GitHubClient) (n : Int)
    (h1 : I64_MIN ≤ n) (h2 : n ≤ I64_MAX) :
    GitHubService.dispatch c "repos" [("limit", Value.num (Num.int n))]
      = (match c.list_repos (i32_cast n) with
         | .error e => .error e
         | .ok repos =>
           .ok (.obj [("repos", .arr repos),
             ("count", .num (.int repos.length))]))
    ∧ (GitHubService.method_list.get? 1).map (fun m => m.name)
      = some "github.repos"
    ∧ (GitHubService.method_list.get? 1).map (fun m => m.input_schema)
      = some (.object [("limit", .integer
          { minimum := some 1, maximum := some 100,
            default := some (.num (.int 10)),
            description := some "Maximum number of repos to return" })] []) := by
  refine ⟨?_, rfl, rfl⟩
  have hi : as_i64 (Value.num (Num.int n)) = some n := by
    show (if I64_MIN ≤ n ∧ n ≤ I64_MAX then some n else none) = some n
    rw [if_pos ⟨h1, h2⟩]
  have hg : GitHubService.get_i32
      [("limit", Value.num (Num.int n))] "limit" 10 = i32_cast n := by
    show (match as_i64 (Value.num (Num.int n)) with
          | some i => i32_cast i
          | none => (10 : Int)) = i32_cast n
    rw [hi]
  show GitHubService.list_repos c [("limit", Value.num (Num.int n))] = _
  simp only [GitHubService.list_repos, hg]

/-- C8 witness: the amended theorem applied at the out-of-range limit 101. -/
theorem C8_witness :
    (I64_MIN ≤ (101 : Int) ∧ (101 : Int) ≤ I64_MAX)
    ∧ GitHubService.dispatch okClient "repos" [("limit", Value.num (Num.int 101))]
      = (match okClient.list_repos (i32_cast 101) with
         | .error e => .error e
         | .ok repos =>
           .ok (.obj [("repos", .arr repos),
             ("count", .num (.int repos.length))])) :=
  ⟨⟨by decide, by decide⟩,
   (C8_limit_bounds_declared_not_enforced okClient 101 (by decide) (by decide)).1⟩

end FgpGithub

namespace FgpGithub

/-- C10: for every parameter bag carrying a valid repo and the explicit
integer 0 for number, get_pr fails with the missing-number message for every
client, and the result is identical for any two clients, so no client call is
made; a bag carrying a negative number in the i32 range instead passes the
number through to the client unchanged. -/
theorem C10_pr_number_zero_is_missing (c c2 : GitHubClient) (params : Params)
    (r owner repo : String) (n : Int)
    (hr : GitHubService.get_str params "repo" = some r)
    (hp : GitHubService.parse_repo r = .ok (owner, repo)) :
    (params.get "number" = some (Value.num (Num.int 0)) →
      GitHubService.dispatch c "pr" params
        = .error "Missing required parameter: number"
      ∧ GitHubService.dispatch c "pr" params
        = GitHubService.dispatch c2 "pr" params)
    ∧ (params.get "number" = some (Value.num (Num.int n)) →
      -2147483648 ≤ n → n < 0 →
      GitHubService.dispatch c "pr" params = c.get_pr owner repo n) := by
  have key : ∀ cc : GitHubClient,
      GitHubService.get_pr cc params
        = if GitHubService.get_i32 params "number" 0 = 0
          then .error "Missing required parameter: number"
          else cc.get_pr owner repo (GitHubService.get_i32 params "number" 0) := by
    intro cc
    unfold GitHubService.get_pr
    rw [hr]
    show (match GitHubService.parse_repo r with
          | .error e => (Except.error e : Except String Value)
          | .ok (owner, repo) =>
            let number := GitHubService.get_i32 params "number" 0
            if number = 0 then .error "Missing required parameter: number"
            else cc.get_pr owner repo number) = _
    rw [hp]
  constructor
  · intro h0
    have hg : GitHubService.get_i32 params "number" 0 = 0 := by
      unfold GitHubService.get_i32
      rw [h0]
      rfl
    have hres : ∀ cc : GitHubClient,
        GitHubService.get_pr cc params
          = .error "Missing required parameter: number" := by
      intro cc
      rw [key cc, hg, if_pos rfl]
    exact ⟨hres c, (hres c).trans (hres c2).symm⟩
  · intro hn hlo hhi
    have ha : as_i64 (Value.num (Num.int n)) = some n := by
      show (if I64_MIN ≤ n ∧ n ≤ I64_MAX then some n else none) = some n
      rw [if_pos]
      unfold I64_MIN I64_MAX
      omega
    have hc : i32_cast n = n := by
      unfold i32_cast
      omega
    have hg : GitHubService.get_i32 params "number" 0 = n := by
      unfold GitHubService.get_i32
      rw [hn]
      show (match as_i64 (Value.num (Num.int n)) with
            | some i => i32_cast i
            | none => (0 : Int)) = n
      rw [ha]
      exact hc
    show GitHubService.get_pr c params = c.get_pr owner repo n
    rw [key c, hg, if_neg (by omega : ¬ n = 0)]

/-- C10 witness: the theorem applied to the concrete bags with an explicit
zero number and with minus one, the valid repo hypotheses discharged by
evaluation. -/
theorem C10_witness :
    GitHubService.dispatch okClient "pr"
        [("repo", Value.str "a/b"), ("number", Value.num (Num.int 0))]
      = .error "Missing required parameter: number"
    ∧ GitHubService.dispatch okClient "pr"
        [("repo", Value.str "a/b"), ("number", Value.num (Num.int (-1)))]
      = okClient.get_pr "a" "b" (-1) :=
  ⟨((C10_pr_number_zero_is_missing okClient pingEmptyClient
      [("repo", Value.str "a/b"), ("number", Value.num (Num.int 0))]
      "a/b" "a" "b" 0 rfl rfl).1 rfl).1,
   (C10_pr_number_zero_is_missing okClient pingEmptyClient
      [("repo", Value.str "a/b"), ("number", Value.num (Num.int (-1)))]
      "a/b" "a" "b" (-1) rfl rfl).2 rfl (by decide) (by decide)⟩

/-- C9 counterexample: a provider failure that reports no current pull
request (without mentioning a missing git repository) is propagated as an
error by pr_status, not converted into a degenerate success with an absence
flag as the claim states. -/
theorem C9_counterexample :
    GithubService.pr_status runNoPr []
      = .error "gh pr status failed: no current pull request" := rfl

/-- C9 (amended): only a failing gh invocation whose stderr contains the not
a git repository phrase is treated as a non-error degenerate success carrying
the explanatory field and has_pr false; other provider failures, including a
no-current-pull-request report, propagate as errors. -/
theorem C9_no_repo_is_degenerate_success
    (run : List String → Except String GithubService.CmdOut)
    (params : Params) (out : GithubService.CmdOut)
    (h1 : run (GithubService.pr_status_args params) = .ok out)
    (h2 : out.success = false)
    (h3 : containsSubstring out.stderr "not a git repository" = true) :
    GithubService.pr_status run params
      = .ok (.obj [("error", .str "Not in a git repository"),
          ("has_pr", .bool false)]) := by
  unfold GithubService.pr_status
  rw [h1]
  simp [h2, h3]

/-- C9 witness: the amended theorem applied to the concrete runner failing
from outside a git repository. -/
theorem C9_witness :
    GithubService.pr_status runNotARepo []
      = .ok (.obj [("error", .str "Not in a git repository"),
          ("has_pr", .bool false)]) :=
  C9_no_repo_is_degenerate_success runNotARepo [] ⟨false, none,
    "fatal: not a git repository (or any of the parent directories)"⟩
    rfl rfl rfl

end FgpGithub
